import Mathlib

/-!
Verification of the rustls TLS engine specification.

The repository ships the integration tests (`rustls/tests/api.rs`,
`rustls/tests/api_ffdhe.rs`) and the example crypto provider
(`provider-example/src/kx.rs`).  The library internals exercised by those
tests (connection common, record layer, key schedule, handshake state
machine) are modelled here from the specification document, faithful to
its words; the provider code is embedded directly from its source.
-/

namespace Rustls

/-- Protocol versions supported by the engine (spec section 1: TLS 1.2/1.3). -/
inductive ProtocolVersion where
  | tls12
  | tls13
deriving DecidableEq, Repr

/-- Wire code of a protocol version (0x0303 for TLS 1.2, 0x0304 for TLS 1.3). -/
def ProtocolVersion.code : ProtocolVersion → Nat
  | .tls12 => 0x0303
  | .tls13 => 0x0304

/-- PeerMisbehaved error variants appearing in the spec and tests. -/
inductive PeerMisbehaved where
  | tooMuchEarlyDataReceived
  | tooManyRenegotiationRequests
  | invalidKeyShare
deriving DecidableEq, Repr

/-- Error taxonomy of the engine (spec section 7); alert descriptions are
carried as their wire codes. -/
inductive TlsError where
  | peerMisbehaved (why : PeerMisbehaved)
  | peerIncompatible
  | alertReceived (desc : Nat)
  | decryptError
  | handshakeNotComplete
  | inappropriateHandshakeMessage
  | general (msg : String)
deriving DecidableEq, Repr

/-! ## Version negotiation (claim C1)

Modelled from the spec: "Version negotiation: client offers an ordered
list; server picks the highest mutually supported version; no overlap is a
hard failure, never a silent downgrade."  The engine knows exactly the two
versions TLS 1.2 and TLS 1.3, so the server's pick checks TLS 1.3 first. -/

/-- Modelled from the spec: the server's version pick.  The library's
version-negotiation code is not under the shipped sources; per the spec the
server selects the highest version supported by both peers, trying TLS 1.3
before TLS 1.2, and fails hard when there is no overlap. -/
def negotiateVersion (clientVersions serverVersions : List ProtocolVersion) :
    Option ProtocolVersion :=
  if ProtocolVersion.tls13 ∈ clientVersions ∧ ProtocolVersion.tls13 ∈ serverVersions then
    some .tls13
  else if ProtocolVersion.tls12 ∈ clientVersions ∧ ProtocolVersion.tls12 ∈ serverVersions then
    some .tls12
  else
    none

/-- Observable outcome of a completed handshake: each peer reports the
negotiated protocol version through its own connection. -/
structure HandshakeVersions where
  clientVersion : ProtocolVersion
  serverVersion : ProtocolVersion
deriving DecidableEq, Repr

/-- Modelled from the spec: the version-negotiation face of a handshake.
Both connections record the single negotiated version; no overlap is a
hard failure surfaced as an error. -/
def handshakeNegotiate (clientVersions serverVersions : List ProtocolVersion) :
    Except TlsError HandshakeVersions :=
  match negotiateVersion clientVersions serverVersions with
  | some v => .ok ⟨v, v⟩
  | none => .error .peerIncompatible

/-- Spec-side characterisation, written from the claim's words: `v` is the
highest protocol version present in both lists. -/
def IsHighestCommonVersion (v : ProtocolVersion)
    (clientVersions serverVersions : List ProtocolVersion) : Prop :=
  v ∈ clientVersions ∧ v ∈ serverVersions ∧
    ∀ w ∈ clientVersions, w ∈ serverVersions → w.code ≤ v.code

/-! ## Sticky errors (claim C2)

Modelled from the spec: "Sticky error state: model as an explicit terminal
variant in the connection's top-level state enum, checked first on every
public call"; "once a connection enters an errored state, every subsequent
call deterministically returns the same outcome without re-running
decryption or parsing".  The handshake state machine is abstracted as a
per-record handler argument, so the theorems hold whatever the state
machine does. -/

/-- A deframed TLS record: content type byte plus payload bytes. -/
structure RawRecord where
  typ : Nat
  payload : List Nat
deriving DecidableEq, Repr

/-- Observable result of process_new_packets when no error occurred:
how many plaintext bytes are ready for the caller. -/
structure IoState where
  plaintextBytesToRead : Nat
deriving DecidableEq, Repr

/-- A connection as seen by Connection Common: the sticky error slot, the
current state-machine state, buffered incoming records and decrypted
plaintext. -/
structure Conn (σ : Type) where
  err : Option TlsError
  machine : σ
  recvRecords : List RawRecord
  plaintext : List Nat
deriving DecidableEq, Repr

/-- Drive the state-machine handler over buffered records, stopping at the
first error; returns the final machine state or the error together with the
unprocessed remainder. -/
def stepRecords (handle : σ → RawRecord → Except TlsError σ) :
    σ → List RawRecord → Except TlsError σ × List RawRecord
  | s, [] => (.ok s, [])
  | s, r :: rest =>
    match handle s r with
    | .ok s' => stepRecords handle s' rest
    | .error e => (.error e, rest)

/-- Modelled from the spec: process_new_packets advances the state machine
as far as buffered records allow and returns the observable IoState or the
first error encountered; the sticky error variant is checked first, before
any decryption or parsing. -/
def processNewPackets (handle : σ → RawRecord → Except TlsError σ)
    (c : Conn σ) : Except TlsError IoState × Conn σ :=
  match c.err with
  | some e => (.error e, c)
  | none =>
    match stepRecords handle c.machine c.recvRecords with
    | (.ok s', _) =>
      (.ok ⟨c.plaintext.length⟩, { c with machine := s', recvRecords := [] })
    | (.error e, rest) =>
      (.error e, { c with err := some e, recvRecords := rest })

/-- A minimal pre-handshake server state machine mirroring the sticky-error
test: a handshake record carrying message type 0x0f (CertificateVerify)
before any ClientHello is an inappropriate handshake message. -/
def expectClientHello : Unit → RawRecord → Except TlsError Unit :=
  fun _ r =>
    if r.typ = 22 ∧ r.payload.headD 0 = 0x0f then
      .error .inappropriateHandshakeMessage
    else
      .ok ()

/-! ## Early-data budget (claim C3)

Modelled from the spec: "a server tracks bytes actually received against
the same limit (including across fragmented streaming writes) — exceeding
it fatally terminates regardless of whether the excess arrives in one
write or many", with error `TooMuchEarlyDataReceived`. -/

/-- Modelled from the spec: the server's running early-data byte count
checked chunk by chunk against the advertised maximum; an excess chunk is
a fatal error, never a truncated accept. -/
def receiveEarlyData (maxEarlyDataSize : Nat) :
    Nat → List Nat → Except TlsError Nat
  | received, [] => .ok received
  | received, chunk :: rest =>
    if maxEarlyDataSize < received + chunk then
      .error (.peerMisbehaved .tooMuchEarlyDataReceived)
    else
      receiveEarlyData maxEarlyDataSize (received + chunk) rest

/-! ## Cipher-suite / key-exchange-group agreement (claim C4)

Modelled from the spec: "Cipher suite negotiation: server's configured
preference order wins ...; a cipher suite is only eligible if its required
key-exchange class (e.g., ECDHE) has an enabled counterpart in the
negotiated kx-group set"; "selection is a linear scan by declared
algorithm/group identifier". -/

/-- Named key-exchange groups appearing in the tests. -/
inductive NamedGroup where
  | secp256r1
  | secp384r1
  | x25519
  | ffdhe2048
  | ffdhe3072
  | ffdhe4096
deriving DecidableEq, Repr

/-- Key-exchange classes required by cipher suites. -/
inductive KxClass where
  | ecdhe
  | dhe
deriving DecidableEq, Repr

/-- The key-exchange class a group belongs to. -/
def NamedGroup.kxClass : NamedGroup → KxClass
  | .secp256r1 => .ecdhe
  | .secp384r1 => .ecdhe
  | .x25519 => .ecdhe
  | .ffdhe2048 => .dhe
  | .ffdhe3072 => .dhe
  | .ffdhe4096 => .dhe

/-- Cipher-suite identifiers appearing in the tests. -/
inductive CipherSuiteId where
  | tlsEcdheRsaWithAes128GcmSha256
  | tlsDheRsaWithAes128GcmSha256
  | tls13Aes128GcmSha256
  | tls13Aes256GcmSha384
  | tls13Chacha20Poly1305Sha256
deriving DecidableEq, Repr

/-- A supported cipher suite: its identifier, the protocol version it
belongs to, and the key-exchange class it requires (`none` for TLS 1.3
suites, which work with any group). -/
structure CipherSuite where
  id : CipherSuiteId
  version : ProtocolVersion
  requiredKxClass : Option KxClass
deriving DecidableEq, Repr

/-- Whether a key-exchange group is usable with a cipher suite: the group's
class must match the suite's required class, if it has one. -/
def suiteUsableWithGroup (s : CipherSuite) (g : NamedGroup) : Bool :=
  match s.requiredKxClass with
  | some c => g.kxClass = c
  | none => true

/-- The key-exchange groups enabled on both peers, in client preference
order. -/
def commonKxGroups (clientGroups serverGroups : List NamedGroup) :
    List NamedGroup :=
  clientGroups.filter (fun g => decide (g ∈ serverGroups))

/-- Modelled from the spec: the server's linear scan over its own suite
preference list; a suite is selected only if the client offered it, it
matches the negotiated version, and some mutually-enabled group is usable
with it; the negotiated group is the first such group. -/
def selectSuiteAndGroup (version : ProtocolVersion) :
    List CipherSuite → List CipherSuiteId → List NamedGroup →
    Option (CipherSuite × NamedGroup)
  | [], _, _ => none
  | s :: rest, clientSuiteIds, common =>
    if s.version = version ∧ s.id ∈ clientSuiteIds then
      match common.find? (fun g => suiteUsableWithGroup s g) with
      | some g => some (s, g)
      | none => selectSuiteAndGroup version rest clientSuiteIds common
    else
      selectSuiteAndGroup version rest clientSuiteIds common

/-! ## Early plaintext alert (claim C5)

Modelled from the spec: "before any decryption key is installed, a single
unencrypted Alert record of an exact, minimal length arriving in TLS 1.3
is accepted as a plaintext early alert ...; all other early content is an
error"; once keys are installed every record is decrypted, so a plaintext
record fails decryption. -/

/-- TLS content-type byte for Alert records. -/
def contentTypeAlert : Nat := 21

/-- What the record layer does with one received plaintext record. -/
inductive RecordOutcome where
  | plaintextAlert (payload : List Nat)
  | failed (e : TlsError)
deriving DecidableEq, Repr

/-- Modelled from the spec: classification of a received unencrypted record
by the record layer.  An Alert record with the exact minimal two-byte
payload, arriving in TLS 1.3 before any decryption key is installed, is
accepted as a plaintext early alert; everything else goes to decryption
and fails with a decrypt error. -/
def processPlaintextRecord (version : ProtocolVersion)
    (decryptKeyInstalled : Bool) (r : RawRecord) : RecordOutcome :=
  if decryptKeyInstalled = false ∧ version = .tls13 ∧
      r.typ = contentTypeAlert ∧ r.payload.length = 2 then
    .plaintextAlert r.payload
  else
    .failed .decryptError

/-! ## TLS 1.2 renegotiation bound (claim C6)

Modelled from the spec: "Renegotiation: legal only as a bounded number of
post-handshake HelloRequest/KeyUpdate messages; exceeding a small fixed
count (e.g., one in TLS 1.2) is fatal"; the first HelloRequest is answered
with a warning-level NoRenegotiation alert. -/

/-- Handshake message types relevant post-handshake. -/
inductive HandshakeType where
  | helloRequest
  | newSessionTicket
  | other (code : Nat)
deriving DecidableEq, Repr

/-- Alert severity levels. -/
inductive AlertLevel where
  | warning
  | fatal
deriving DecidableEq, Repr

/-- An alert message: level plus description wire code. -/
structure AlertMsg where
  level : AlertLevel
  desc : Nat
deriving DecidableEq, Repr

/-- Wire code of the NoRenegotiation alert description. -/
def alertDescNoRenegotiation : Nat := 100

/-- Post-handshake client state on a TLS 1.2 connection: how many
HelloRequest messages the peer has sent so far. -/
structure Tls12PostHandshakeState where
  helloRequestsReceived : Nat
deriving DecidableEq, Repr

/-- Modelled from the spec: handling of a post-handshake handshake message
on a TLS 1.2 client connection.  The first HelloRequest is refused politely
with a warning-level NoRenegotiation alert; any further HelloRequest is the
fatal error TooManyRenegotiationRequests. -/
def handlePostHandshakeTls12 (st : Tls12PostHandshakeState)
    (m : HandshakeType) :
    Except TlsError (Tls12PostHandshakeState × Option AlertMsg) :=
  match m with
  | .helloRequest =>
    if st.helloRequestsReceived = 0 then
      .ok (⟨st.helloRequestsReceived + 1⟩,
        some ⟨.warning, alertDescNoRenegotiation⟩)
    else
      .error (.peerMisbehaved .tooManyRenegotiationRequests)
  | .newSessionTicket => .ok (st, none)
  | .other _ => .error .inappropriateHandshakeMessage

/-! ## Exporter bounds (claim C7)

Modelled from the spec: "Exporter APIs derive additional keying material of
caller-specified length bound by a hard per-spec maximum (255 ×
hash-length); requesting more fails with a descriptive error, as does
requesting zero-length output", and the tests' pre-handshake failure. -/

/-- Modelled from the spec: the validation performed by
export_keying_material for a negotiated suite whose hash has the given
length; the actual HKDF expansion is an external collaborator and is not
needed to settle the length bounds. -/
def exportKeyingMaterial (handshakeComplete : Bool)
    (hashLen outputLen : Nat) : Except TlsError Unit :=
  if handshakeComplete = false then
    .error .handshakeNotComplete
  else if outputLen = 0 then
    .error (.general "export_keying_material with zero-length output")
  else if 255 * hashLen < outputLen then
    .error (.general "exporting too much")
  else
    .ok ()

/-! ## Data after close_notify (claim C8)

Modelled from the spec: "a clean close_notify sets a one-way flag; any
bytes following a peer's close_notify within the same or later records are
deliberately ignored (not error, not buffered)". -/

/-- The read-side state of a connection after the handshake: whether the
peer has sent close_notify, and the buffered decrypted plaintext. -/
structure ReadPath where
  peerClosed : Bool
  plaintext : List Nat
deriving DecidableEq, Repr

/-- An incoming post-handshake record as seen after record protection:
application data, the close_notify alert, or bytes that do not decrypt. -/
inductive DataRecord where
  | appData (bytes : List Nat)
  | closeNotifyAlert
  | junk
deriving DecidableEq, Repr

/-- Modelled from the spec: dispatch of one received record on the read
path.  Once the peer-closed flag is set every record is ignored — no
error, no buffering; before that, application data is buffered,
close_notify sets the flag, and undecryptable bytes are an error. -/
def dispatchDataRecord (s : ReadPath) (r : DataRecord) :
    Except TlsError ReadPath :=
  if s.peerClosed then .ok s
  else
    match r with
    | .appData bytes => .ok { s with plaintext := s.plaintext ++ bytes }
    | .closeNotifyAlert => .ok { s with peerClosed := true }
    | .junk => .error .decryptError

/-- Dispatch a list of received records in order, stopping at the first
error. -/
def dispatchDataRecords (s : ReadPath) :
    List DataRecord → Except TlsError ReadPath
  | [] => .ok s
  | r :: rest =>
    match dispatchDataRecord s r with
    | .ok s' => dispatchDataRecords s' rest
    | .error e => .error e

/-- reader().read: drains the buffered plaintext; an empty buffer on a
peer-closed connection reads as zero bytes, the clean end-of-file. -/
def readPlaintext (s : ReadPath) : List Nat × ReadPath :=
  (s.plaintext, { s with plaintext := [] })

/-! ## Plaintext buffer limit (claims C9)

Modelled from the spec: "write/writer() (buffer outgoing plaintext up to a
configurable limit, returning how much was accepted; beyond the limit,
further bytes are silently dropped by design, mirroring a fixed-size ring
buffer)".  This is the pre-handshake behaviour the cited tests exercise,
where the buffered bytes are pure plaintext. -/

/-- How many of the requested bytes a writer().write call accepts into a
plaintext buffer with the given limit and current fill: the rest are
silently dropped from the accepted count, never an error. -/
def bufferedWriteAccepted (limit buffered requested : Nat) : Nat :=
  min requested (limit - buffered)

/-- Two successive writer().write calls of the same requested size against
a fresh connection with the given buffer limit: the pair of accepted
counts. -/
def writeTwiceAccepted (limit requested : Nat) : Nat × Nat :=
  let first := bufferedWriteAccepted limit 0 requested
  (first, bufferedWriteAccepted limit first requested)

/-! ## Example provider X25519 key-exchange completion (claim C10)

Embedded from `provider-example/src/kx.rs`.  The x25519_dalek
Diffie–Hellman computation is an external collaborator (spec section 1)
and is passed in as a function; `SharedSecret::from` keeps the shared
secret's bytes unchanged. -/

/-- The example provider's in-progress key exchange: the ephemeral private
key and the corresponding public key, as byte lists. -/
structure KeyExchange where
  privKey : List Nat
  pubKey : List Nat
deriving DecidableEq, Repr

/-- ActiveKeyExchange::complete from `provider-example/src/kx.rs`:
`peer.try_into() : [u8; 32]` succeeds exactly when the slice length is 32,
otherwise the call fails with PeerMisbehaved::InvalidKeyShare; on success
the result is the Diffie–Hellman shared secret of the private key and the
peer's public key. -/
def KeyExchange.complete (dh : List Nat → List Nat → List Nat)
    (kx : KeyExchange) (peer : List Nat) : Except TlsError (List Nat) :=
  if peer.length = 32 then
    .ok (dh kx.privKey peer)
  else
    .error (.peerMisbehaved .invalidKeyShare)

/-! ## Theorems -/

/-- C1: for every pair of configured client and server version lists, a
handshake that succeeds negotiates exactly the highest protocol version
present in both lists and both peers report it identically; whenever the
two lists share a version the handshake succeeds, and when they have empty
intersection it always fails with an error. -/
theorem handshake_negotiates_highest_common_version
    (cv sv : List ProtocolVersion) :
    (∀ o, handshakeNegotiate cv sv = .ok o →
      o.clientVersion = o.serverVersion ∧
        IsHighestCommonVersion o.clientVersion cv sv) ∧
    ((∃ v, v ∈ cv ∧ v ∈ sv) → ∃ o, handshakeNegotiate cv sv = .ok o) ∧
    ((∀ v ∈ cv, v ∉ sv) →
      handshakeNegotiate cv sv = .error .peerIncompatible) := by
  by_cases h13 : ProtocolVersion.tls13 ∈ cv ∧ ProtocolVersion.tls13 ∈ sv
  · have hok : handshakeNegotiate cv sv = .ok ⟨.tls13, .tls13⟩ := by
      unfold handshakeNegotiate negotiateVersion
      rw [if_pos h13]
    refine ⟨?_, ?_, ?_⟩
    · intro o ho
      rw [hok] at ho
      injection ho with ho
      subst ho
      exact ⟨rfl, h13.1, h13.2, fun w _ _ => by cases w <;> decide⟩
    · intro _
      exact ⟨_, hok⟩
    · intro hdisj
      exact absurd h13.2 (hdisj _ h13.1)
  · by_cases h12 : ProtocolVersion.tls12 ∈ cv ∧ ProtocolVersion.tls12 ∈ sv
    · have hok : handshakeNegotiate cv sv = .ok ⟨.tls12, .tls12⟩ := by
        unfold handshakeNegotiate negotiateVersion
        rw [if_neg h13, if_pos h12]
      refine ⟨?_, ?_, ?_⟩
      · intro o ho
        rw [hok] at ho
        injection ho with ho
        subst ho
        refine ⟨rfl, h12.1, h12.2, ?_⟩
        intro w hwc hws
        cases w
        · decide
        · exact absurd ⟨hwc, hws⟩ h13
      · intro _
        exact ⟨_, hok⟩
      · intro hdisj
        exact absurd h12.2 (hdisj _ h12.1)
    · have herr : handshakeNegotiate cv sv = .error .peerIncompatible := by
        unfold handshakeNegotiate negotiateVersion
        rw [if_neg h13, if_neg h12]
      refine ⟨?_, ?_, ?_⟩
      · intro o ho
        rw [herr] at ho
        exact absurd ho (by simp)
      · rintro ⟨v, hvc, hvs⟩
        cases v
        · exact absurd ⟨hvc, hvs⟩ h12
        · exact absurd ⟨hvc, hvs⟩ h13
      · intro _
        exact herr

/-- C1 witness: a client offering [TLS 1.3, TLS 1.2] against a server
configured with only [TLS 1.2] negotiates TLS 1.2, the highest common
version, on both peers; and a client offering only [TLS 1.2] against a
server with only [TLS 1.3] fails with an error. -/
theorem handshake_negotiates_highest_common_version_witness :
    ((HandshakeVersions.mk .tls12 .tls12).clientVersion =
        (HandshakeVersions.mk .tls12 .tls12).serverVersion ∧
      IsHighestCommonVersion (HandshakeVersions.mk .tls12 .tls12).clientVersion
        [.tls13, .tls12] [.tls12]) ∧
    handshakeNegotiate [.tls12] [.tls13] = .error .peerIncompatible :=
  ⟨(handshake_negotiates_highest_common_version [.tls13, .tls12] [.tls12]).1
      ⟨.tls12, .tls12⟩ (by rfl),
    (handshake_negotiates_highest_common_version [.tls12] [.tls13]).2.2
      (by decide)⟩

/-- C2: once process_new_packets has returned an error, the connection is
terminal: every subsequent process_new_packets call — under any
state-machine handler whatsoever, hence without re-running decryption or
parsing — returns the identical error and leaves the connection's
observable state unchanged. -/
theorem process_error_is_sticky {σ : Type}
    (handle : σ → RawRecord → Except TlsError σ) (c c' : Conn σ)
    (e : TlsError)
    (h : processNewPackets handle c = (.error e, c')) :
    ∀ handle' : σ → RawRecord → Except TlsError σ,
      processNewPackets handle' c' = (.error e, c') := by
  intro handle'
  have herr : c'.err = some e := by
    unfold processNewPackets at h
    split at h
    case h_1 e0 heq =>
      rw [Prod.mk.injEq] at h
      obtain ⟨h1, h2⟩ := h
      injection h1 with h1
      subst h1
      rw [← h2, heq]
    case h_2 heq =>
      split at h
      case h_1 s' x heq2 =>
        simp at h
      case h_2 e0 rest heq2 =>
        rw [Prod.mk.injEq] at h
        obtain ⟨h1, h2⟩ := h
        injection h1 with h1
        subst h1
        rw [← h2]
  unfold processNewPackets
  rw [herr]

/-- C2 witness: feeding the server the malformed handshake record from the
sticky-error test puts the connection into the errored state, and a further
process_new_packets call on that state returns the identical error with the
state unchanged. -/
theorem process_error_is_sticky_witness :
    processNewPackets expectClientHello
        ⟨some .inappropriateHandshakeMessage, (), [], []⟩ =
      (.error .inappropriateHandshakeMessage,
        ⟨some .inappropriateHandshakeMessage, (), [], []⟩) :=
  process_error_is_sticky expectClientHello
    ⟨none, (), [⟨22, [15, 0, 0, 4, 106, 117, 110, 107]⟩], []⟩
    ⟨some .inappropriateHandshakeMessage, (), [], []⟩
    .inappropriateHandshakeMessage (by rfl) expectClientHello

/-- Helper for C3: running the early-data accounting from any already
in-budget byte count errors exactly when the total would exceed the limit,
and otherwise accepts every byte. -/
theorem receiveEarlyData_run (m : Nat) (chunks : List Nat) :
    ∀ r : Nat, r ≤ m →
      (m < r + chunks.sum →
        receiveEarlyData m r chunks =
          .error (.peerMisbehaved .tooMuchEarlyDataReceived)) ∧
      (r + chunks.sum ≤ m →
        receiveEarlyData m r chunks = .ok (r + chunks.sum)) := by
  induction chunks with
  | nil =>
    intro r hr
    constructor
    · intro hlt
      simp only [List.sum_nil, Nat.add_zero] at hlt
      exact absurd hlt (Nat.not_lt.mpr hr)
    · intro _
      simp only [List.sum_nil, Nat.add_zero]
      rfl
  | cons c rest ih =>
    intro r hr
    constructor
    · intro hlt
      simp only [List.sum_cons] at hlt
      simp only [receiveEarlyData]
      by_cases hc : m < r + c
      · rw [if_pos hc]
      · rw [if_neg hc]
        have hrc : r + c ≤ m := Nat.not_lt.mp hc
        exact (ih (r + c) hrc).1 (by omega)
    · intro hle
      simp only [List.sum_cons] at hle ⊢
      simp only [receiveEarlyData]
      have hrc : r + c ≤ m := by omega
      rw [if_neg (Nat.not_lt.mpr hrc)]
      have h2 := (ih (r + c) hrc).2 (by omega)
      rw [h2]
      congr 1
      omega

/-- C3: whenever the cumulative early-data byte count exceeds the maximum
the server advertised — regardless of how it is split across streamed
writes — the server fails with PeerMisbehaved::TooMuchEarlyDataReceived;
within the budget every byte is accepted, never silently truncated. -/
theorem excess_early_data_always_detected (maxSize : Nat)
    (chunks : List Nat) :
    (maxSize < chunks.sum →
      receiveEarlyData maxSize 0 chunks =
        .error (.peerMisbehaved .tooMuchEarlyDataReceived)) ∧
    (chunks.sum ≤ maxSize →
      receiveEarlyData maxSize 0 chunks = .ok chunks.sum) := by
  have h := receiveEarlyData_run maxSize chunks 0 (Nat.zero_le _)
  constructor
  · intro hlt
    exact h.1 (by omega)
  · intro hle
    have h2 := h.2 (by omega)
    simpa using h2

/-- C3 witness: with the tests' advertised maximum of 1234 bytes, streamed
writes of 1024 then 1000 bytes (total 2024) fail with
TooMuchEarlyDataReceived, while a single 1024-byte write is accepted in
full. -/
theorem excess_early_data_always_detected_witness :
    receiveEarlyData 1234 0 [1024, 1000] =
        .error (.peerMisbehaved .tooMuchEarlyDataReceived) ∧
      receiveEarlyData 1234 0 [1024] = .ok 1024 :=
  ⟨(excess_early_data_always_detected 1234 [1024, 1000]).1 (by decide),
    (excess_early_data_always_detected 1234 [1024]).2 (by decide)⟩

/-- C4: whenever the server's linear scan selects a cipher suite and a
key-exchange group, the negotiated group is enabled on both the client and
the server and is compatible with the selected suite's required
key-exchange class — so that class has at least one group enabled on both
peers. -/
theorem negotiated_suite_has_common_compatible_group
    (version : ProtocolVersion) (serverSuites : List CipherSuite)
    (clientSuiteIds : List CipherSuiteId)
    (clientGroups serverGroups : List NamedGroup)
    (s : CipherSuite) (g : NamedGroup) :
    selectSuiteAndGroup version serverSuites clientSuiteIds
        (commonKxGroups clientGroups serverGroups) = some (s, g) →
      g ∈ clientGroups ∧ g ∈ serverGroups ∧
        suiteUsableWithGroup s g = true := by
  induction serverSuites with
  | nil =>
    intro h
    simp [selectSuiteAndGroup] at h
  | cons s0 rest ih =>
    intro h
    simp only [selectSuiteAndGroup] at h
    by_cases hc : s0.version = version ∧ s0.id ∈ clientSuiteIds
    · rw [if_pos hc] at h
      split at h
      next g0 heq =>
        rw [Option.some.injEq, Prod.mk.injEq] at h
        obtain ⟨hs, hg⟩ := h
        subst hs
        subst hg
        have hmem := List.mem_of_find?_eq_some heq
        have hp := List.find?_some heq
        simp only [commonKxGroups] at hmem
        rw [List.mem_filter] at hmem
        exact ⟨hmem.1, of_decide_eq_true hmem.2, hp⟩
      next heq =>
        exact ih h
    · rw [if_neg hc] at h
      exact ih h

/-- C4 witness: the FFDHE test's configuration — server preferring the
ECDHE suite, client groups [secp384r1, ffdhe2048], server groups
[secp256r1, ffdhe2048] — selects the DHE suite with group ffdhe2048, and
that group is enabled on both peers and compatible with the suite. -/
theorem negotiated_suite_has_common_compatible_group_witness :
    NamedGroup.ffdhe2048 ∈ ([.secp384r1, .ffdhe2048] : List NamedGroup) ∧
      NamedGroup.ffdhe2048 ∈ ([.secp256r1, .ffdhe2048] : List NamedGroup) ∧
      suiteUsableWithGroup
          ⟨.tlsDheRsaWithAes128GcmSha256, .tls12, some .dhe⟩ .ffdhe2048 =
        true :=
  negotiated_suite_has_common_compatible_group .tls12
    [⟨.tlsEcdheRsaWithAes128GcmSha256, .tls12, some .ecdhe⟩,
      ⟨.tlsDheRsaWithAes128GcmSha256, .tls12, some .dhe⟩,
      ⟨.tls13Aes128GcmSha256, .tls13, none⟩]
    [.tlsEcdheRsaWithAes128GcmSha256, .tlsDheRsaWithAes128GcmSha256,
      .tls13Aes128GcmSha256]
    [.secp384r1, .ffdhe2048] [.secp256r1, .ffdhe2048]
    ⟨.tlsDheRsaWithAes128GcmSha256, .tls12, some .dhe⟩ .ffdhe2048 (by rfl)

/-- C5: before any decryption key is installed, a TLS 1.3 Alert record is
accepted as a plaintext early alert exactly when its payload has the
minimal two-byte alert length; every other record — longer payload, wrong
content type, or arriving after a key is installed — fails with a decrypt
error. -/
theorem early_plaintext_alert_exactness (version : ProtocolVersion)
    (keyInstalled : Bool) (r : RawRecord) :
    (∀ p, processPlaintextRecord version keyInstalled r =
        .plaintextAlert p ↔
      keyInstalled = false ∧ version = .tls13 ∧ r.typ = contentTypeAlert ∧
        r.payload = p ∧ p.length = 2) ∧
    (¬(keyInstalled = false ∧ version = .tls13 ∧
        r.typ = contentTypeAlert ∧ r.payload.length = 2) →
      processPlaintextRecord version keyInstalled r =
        .failed .decryptError) := by
  constructor
  · intro p
    unfold processPlaintextRecord
    by_cases hc : keyInstalled = false ∧ version = .tls13 ∧
        r.typ = contentTypeAlert ∧ r.payload.length = 2
    · rw [if_pos hc]
      constructor
      · intro hp
        rw [RecordOutcome.plaintextAlert.injEq] at hp
        refine ⟨hc.1, hc.2.1, hc.2.2.1, hp, ?_⟩
        rw [← hp]
        exact hc.2.2.2
      · rintro ⟨-, -, -, hp, -⟩
        rw [hp]
    · rw [if_neg hc]
      constructor
      · intro hfail
        simp at hfail
      · rintro ⟨h1, h2, h3, hp, hl⟩
        refine absurd ⟨h1, h2, h3, ?_⟩ hc
        rw [hp]
        exact hl
  · intro hn
    unfold processPlaintextRecord
    rw [if_neg hn]

/-- C5 witness: pre-key, the two-byte fatal UnknownCA alert ([2, 48]) is
accepted as a plaintext early alert; the same alert with a third payload
byte, and the two-byte alert arriving after a key is installed, both fail
with a decrypt error. -/
theorem early_plaintext_alert_exactness_witness :
    processPlaintextRecord .tls13 false ⟨21, [2, 48]⟩ =
        .plaintextAlert [2, 48] ∧
      processPlaintextRecord .tls13 false ⟨21, [2, 48, 255]⟩ =
        .failed .decryptError ∧
      processPlaintextRecord .tls13 true ⟨21, [2, 48]⟩ =
        .failed .decryptError :=
  ⟨((early_plaintext_alert_exactness .tls13 false ⟨21, [2, 48]⟩).1
      [2, 48]).mpr (by decide),
    (early_plaintext_alert_exactness .tls13 false ⟨21, [2, 48, 255]⟩).2
      (by decide),
    (early_plaintext_alert_exactness .tls13 true ⟨21, [2, 48]⟩).2
      (by decide)⟩

/-- C6: after a TLS 1.2 handshake, the first HelloRequest from the server
is accepted and answered with a warning-level NoRenegotiation alert, and
once one HelloRequest has been accepted any further HelloRequest fails
with PeerMisbehaved::TooManyRenegotiationRequests. -/
theorem second_hello_request_is_fatal :
    (handlePostHandshakeTls12 ⟨0⟩ .helloRequest =
      .ok (⟨1⟩, some ⟨.warning, alertDescNoRenegotiation⟩)) ∧
    ∀ st st' alert,
      handlePostHandshakeTls12 st .helloRequest = .ok (st', alert) →
      alert = some ⟨.warning, alertDescNoRenegotiation⟩ ∧
        handlePostHandshakeTls12 st' .helloRequest =
          .error (.peerMisbehaved .tooManyRenegotiationRequests) := by
  constructor
  · rfl
  · intro st st' alert h
    simp only [handlePostHandshakeTls12] at h ⊢
    by_cases h0 : st.helloRequestsReceived = 0
    · rw [if_pos h0] at h
      rw [Except.ok.injEq, Prod.mk.injEq] at h
      obtain ⟨h1, h2⟩ := h
      refine ⟨h2.symm, ?_⟩
      rw [← h1]
      rw [if_neg (by simp)]
    · rw [if_neg h0] at h
      exact absurd h (by simp)

/-- C6 witness: applying the post-handshake handler to the fresh state and
then to the state it returns shows the first HelloRequest answered with
the warning NoRenegotiation alert and the second failing with
TooManyRenegotiationRequests. -/
theorem second_hello_request_is_fatal_witness :
    some (AlertMsg.mk .warning alertDescNoRenegotiation) =
        some (AlertMsg.mk .warning alertDescNoRenegotiation) ∧
      handlePostHandshakeTls12 ⟨1⟩ .helloRequest =
        .error (.peerMisbehaved .tooManyRenegotiationRequests) :=
  second_hello_request_is_fatal.2 ⟨0⟩ ⟨1⟩
    (some ⟨.warning, alertDescNoRenegotiation⟩) (by rfl)

/-- C7: after the handshake, export_keying_material fails with the
descriptive error "exporting too much" for every output length greater
than 255 × the negotiated hash length, fails with a descriptive error for
zero-length requests, and succeeds for every length within the bound. -/
theorem export_keying_material_bounds (hashLen outputLen : Nat) :
    (255 * hashLen < outputLen →
      exportKeyingMaterial true hashLen outputLen =
        .error (.general "exporting too much")) ∧
    (exportKeyingMaterial true hashLen 0 =
      .error (.general "export_keying_material with zero-length output")) ∧
    (0 < outputLen → outputLen ≤ 255 * hashLen →
      exportKeyingMaterial true hashLen outputLen = .ok ()) := by
  refine ⟨?_, ?_, ?_⟩
  · intro h
    unfold exportKeyingMaterial
    rw [if_neg (by simp), if_neg (by omega), if_pos h]
  · unfold exportKeyingMaterial
    rw [if_neg (by simp), if_pos rfl]
  · intro h0 hle
    unfold exportKeyingMaterial
    rw [if_neg (by simp), if_neg (by omega), if_neg (by omega)]

/-- C7 witness: for a SHA-384 suite (hash length 48), requesting 255 × 48
bytes succeeds while 255 × 48 + 1 bytes fails with "exporting too much". -/
theorem export_keying_material_bounds_witness :
    exportKeyingMaterial true 48 (255 * 48 + 1) =
        .error (.general "exporting too much") ∧
      exportKeyingMaterial true 48 (255 * 48) = .ok () :=
  ⟨(export_keying_material_bounds 48 (255 * 48 + 1)).1 (by decide),
    (export_keying_material_bounds 48 (255 * 48)).2.2 (by decide)
      (by decide)⟩

/-- Helper for C8: once the peer-closed flag is set, dispatching any
sequence of records is a no-op — no error, no buffering, no state
change. -/
theorem dispatch_closed_ignores (s : ReadPath) (hs : s.peerClosed = true)
    (l : List DataRecord) : dispatchDataRecords s l = .ok s := by
  induction l with
  | nil => rfl
  | cons r rest ih =>
    have hd : dispatchDataRecord s r = .ok s := by
      unfold dispatchDataRecord
      rw [if_pos hs]
    simp only [dispatchDataRecords]
    rw [hd]
    exact ih

/-- Helper for C8: dispatching a concatenation first runs the prefix; if
that succeeds, the remainder continues from the resulting state. -/
theorem dispatchDataRecords_append (pre : List DataRecord) :
    ∀ (s0 s1 : ReadPath) (rest : List DataRecord),
      dispatchDataRecords s0 pre = .ok s1 →
      dispatchDataRecords s0 (pre ++ rest) = dispatchDataRecords s1 rest := by
  induction pre with
  | nil =>
    intro s0 s1 rest h
    injection h with h
    subst h
    rfl
  | cons r pre ih =>
    intro s0 s1 rest h
    rw [List.cons_append]
    simp only [dispatchDataRecords] at h ⊢
    cases hd : dispatchDataRecord s0 r with
    | ok s' =>
      rw [hd] at h
      exact ih s' s1 rest h
    | error e =>
      rw [hd] at h
      exact Except.noConfusion h

/-- C8: after the peer's close_notify is processed, any records following
it — in the same batch or later — are ignored: not surfaced, not
buffered, and never an error; the data received before the close_notify
remains readable, and the read after it drains reports zero bytes. -/
theorem data_after_close_notify_ignored (s0 s1 : ReadPath)
    (pre post : List DataRecord)
    (h : dispatchDataRecords s0 pre = .ok s1) :
    dispatchDataRecords s0 (pre ++ DataRecord.closeNotifyAlert :: post) =
        .ok ⟨true, s1.plaintext⟩ ∧
      (readPlaintext ⟨true, s1.plaintext⟩).1 = s1.plaintext ∧
      (readPlaintext (readPlaintext ⟨true, s1.plaintext⟩).2).1 = [] := by
  refine ⟨?_, rfl, rfl⟩
  obtain ⟨pc, pl⟩ := s1
  rw [dispatchDataRecords_append pre s0 ⟨pc, pl⟩ _ h]
  have hd : dispatchDataRecord ⟨pc, pl⟩ .closeNotifyAlert = .ok ⟨true, pl⟩ := by
    cases pc
    · unfold dispatchDataRecord
      rw [if_neg (by simp)]
    · unfold dispatchDataRecord
      rw [if_pos rfl]
  simp only [dispatchDataRecords]
  rw [hd]
  exact dispatch_closed_ignores ⟨true, pl⟩ rfl post

/-- C8 witness: "hello" arriving before close_notify is kept; junk and
further application data after the close_notify are ignored without error;
the first read returns "hello" and the next read returns zero bytes. -/
theorem data_after_close_notify_ignored_witness :
    dispatchDataRecords ⟨false, []⟩
        ([DataRecord.appData [104, 101, 108, 108, 111]] ++
          DataRecord.closeNotifyAlert ::
            [DataRecord.junk, DataRecord.appData [97]]) =
        .ok ⟨true, [104, 101, 108, 108, 111]⟩ ∧
      (readPlaintext ⟨true, [104, 101, 108, 108, 111]⟩).1 =
        [104, 101, 108, 108, 111] ∧
      (readPlaintext
          (readPlaintext ⟨true, [104, 101, 108, 108, 111]⟩).2).1 = [] :=
  data_after_close_notify_ignored ⟨false, []⟩
    ⟨false, [104, 101, 108, 108, 111]⟩
    [.appData [104, 101, 108, 108, 111]] [.junk, .appData [97]] (by rfl)

/-- C9 counterexample: with a 32-byte buffer limit, two writer().write
calls of 21 bytes are accepted as 21 then 11 bytes — the second cannot
return 12 as the claim states, since 21 + 12 would exceed the limit. -/
theorem buffer_limit_21_byte_claim_false :
    writeTwiceAccepted 32 21 = (21, 11) ∧
      writeTwiceAccepted 32 21 ≠ (21, 12) := by
  constructor
  · rfl
  · decide

/-- C9 (amended): with a 32-byte buffer limit, two writer().write calls of
20 bytes are accepted in full (20) on the first write and partially (12 of
20) on the second once the limit is reached; the excess is dropped from
the accepted count rather than signalled as an error. -/
theorem buffer_limit_20_bytes_accepted_20_then_12 :
    writeTwiceAccepted 32 20 = (20, 12) := by
  decide

/-- C10: the example X25519 provider's ActiveKeyExchange::complete rejects
every peer public-key slice whose length is not exactly 32 bytes with
PeerMisbehaved::InvalidKeyShare, and for every 32-byte slice returns the
Diffie–Hellman shared secret of the private key and the peer key. -/
theorem complete_validates_key_length
    (dh : List Nat → List Nat → List Nat) (kx : KeyExchange)
    (peer : List Nat) :
    (peer.length ≠ 32 →
      kx.complete dh peer = .error (.peerMisbehaved .invalidKeyShare)) ∧
    (peer.length = 32 → kx.complete dh peer = .ok (dh kx.privKey peer)) := by
  constructor
  · intro h
    unfold KeyExchange.complete
    rw [if_neg h]
  · intro h
    unfold KeyExchange.complete
    rw [if_pos h]

/-- C10 witness: a 31-byte peer key is rejected with InvalidKeyShare and a
32-byte peer key completes with the shared secret computed by the
Diffie–Hellman collaborator. -/
theorem complete_validates_key_length_witness :
    (KeyExchange.mk [1] [2]).complete (fun a b => a ++ b)
        (List.replicate 31 0) =
        .error (.peerMisbehaved .invalidKeyShare) ∧
      (KeyExchange.mk [1] [2]).complete (fun a b => a ++ b)
          (List.replicate 32 5) =
        .ok ([1] ++ List.replicate 32 5) :=
  ⟨(complete_validates_key_length (fun a b => a ++ b) ⟨[1], [2]⟩
      (List.replicate 31 0)).1 (by decide),
    (complete_validates_key_length (fun a b => a ++ b) ⟨[1], [2]⟩
      (List.replicate 32 5)).2 (by decide)⟩

end Rustls
